import Mathlib

/-!
Verification development for scripts/compute_cumulative_gpa.py.

The script is a pandas pipeline.  Its row-wise operations are embedded as
pure Lean functions over explicit record structures; pandas NaN/null cells
are modelled as `Option ℚ` (`none` = missing), and record sets as `List`s
of records.  Vectorised pandas expressions are embedded row-wise, which is
faithful because every operation used by the script acts independently on
each row (assignment chains with boolean masks, arithmetic, filters) or is
an explicitly modelled group-by / sort / drop-duplicates.
-/

/-- Model of the pandas expression
`df["CourseCD"].astype(str).str.slice(a, b)`:
the substring of `s` from index `a` (inclusive) to `b` (exclusive),
empty when the indices fall outside the string. -/
def strSlice (s : String) (a b : Nat) : String :=
  String.mk ((s.data.drop a).take (b - a))

/-- The char1 → subject base table of `derive_subject_and_description`
(the chain of `df.loc[first == c, "subject"] = v` assignments, lines
145-157; the conditions are mutually exclusive, so the chain is a table
lookup on the first character). -/
def subjectBase (first : String) : String :=
  if first = "E" then "English"
  else if first = "H" then "Social Studies"
  else if first = "M" then "Mathematics"
  else if first = "S" then "Science"
  else if first = "F" then "Foreign Language"
  else if first = "P" then "Physical Education & Health"
  else if first = "A" ∨ first = "U" ∨ first = "D" ∨ first = "C" then "Arts"
  else if first = "T" then "Technology"
  else if first = "R" then "Career Development"
  else if first = "B" then "Business"
  else if first = "K" then "Human Services"
  else if first = "G" then "Guidance"
  else if first = "Z" then "Undefined"
  else ""

/-- The char6 → course_description base table (lines 163-172 of
`derive_subject_and_description`). -/
def descriptionBase (sixth : String) : String :=
  if sixth = "H" then "Honors"
  else if sixth = "X" then "Advanced Placement (AP)"
  else if sixth = "B" then "International Baccalaureate (IB)"
  else if sixth = "U" then "College-Level: College Credit"
  else if sixth = "C" then "College-Level: Non-College Credit"
  else if sixth = "T" then "CTE"
  else if sixth = "S" then "Non-Credit/Remediation"
  else if sixth = "P" then "Exam Preparation"
  else if sixth = "Q" then "N/A"
  else ""

/-- The subject column of `derive_subject_and_description` for one row:
base table on `slice(0,1)`, then the `fourth == "J"` override (line 160)
forcing the empty string. -/
def derive_subject (course_code : String) : String :=
  let first := strSlice course_code 0 1
  let fourth := strSlice course_code 3 4
  let s := subjectBase first
  if fourth = "J" then "" else s

/-- The course_description column of `derive_subject_and_description` for
one row: base table on `slice(5,6)`, then in order the `fourth == "J"`
override (line 175), the accelerated middle-school override
`sixth == "A" ∧ fourth == "M"` (line 177), and the middle-school
advanced-tier override (line 178), each overwriting the previous value. -/
def derive_course_description (course_code : String) : String :=
  let sixth := strSlice course_code 5 6
  let fourth := strSlice course_code 3 4
  let d := descriptionBase sixth
  let d := if fourth = "J" then "" else d
  let d := if sixth = "A" ∧ fourth = "M" then "Accelerated" else d
  if (sixth = "X" ∨ sixth = "B" ∨ sixth = "U" ∨ sixth = "C" ∨ sixth = "P")
      ∧ fourth = "M" then "" else d

/-- The pair of derived columns of `derive_subject_and_description`
(lines 136-180) for one row. -/
def derive_subject_and_description (course_code : String) : String × String :=
  (derive_subject course_code, derive_course_description course_code)

/-- One coursegrade row as seen by `compute_yearly_totals` (after the
merges, renames and lower-casing of `compute_current_year_coursegrades`,
or straight from a prior-year CSV).  Numeric cells that may be NaN are
`Option ℚ`; `mark` is a grade string whose cell may be missing. -/
structure CourseGradeRow where
  school_year : Int
  student_id : Int
  credits : Option ℚ
  mark : Option String
  is_passing : Option ℚ
  numeric_equivalent : Option ℚ
  grade_average_factor : Option ℚ
  grade_averaged_flag : Option ℚ
deriving DecidableEq, Repr

/-- The eligibility filter of `compute_yearly_totals` (line 283):
`d[~((d.get("grade_averaged_flag").fillna(0) == 0) | (d.get("numeric_equivalent").isna()))]`.
`Option.getD 0` is `fillna(0)`. -/
def eligibleRow (r : CourseGradeRow) : Bool :=
  !(decide (r.grade_averaged_flag.getD 0 = 0) || decide (r.numeric_equivalent = none))

/-- NaN-propagating multiplication of two float cells (pandas `*`). -/
def optMul (a b : Option ℚ) : Option ℚ :=
  match a, b with
  | some x, some y => some (x * y)
  | _, _ => none

/-- Per-row `tot_cred_earned = credits * is_passing` (line 291). -/
def tot_cred_earned_row (r : CourseGradeRow) : Option ℚ :=
  optMul r.credits r.is_passing

/-- Per-row `tot_gpa_pts = numeric_equivalent * credits * grade_average_factor`
(line 292; `*` is left-associative). -/
def tot_gpa_pts_row (r : CourseGradeRow) : Option ℚ :=
  optMul (optMul r.numeric_equivalent r.credits) r.grade_average_factor

/-- Per-row attempted credits: the `credits` column renamed to
`tot_cred_att` (line 295). -/
def tot_cred_att_row (r : CourseGradeRow) : Option ℚ :=
  r.credits

/-- Pandas `Series.sum(min_count=1)` over the cells of one group column:
skip the NaN cells and sum the rest, but return NaN when no non-NaN cell
exists. -/
def sum_min_count_1 (l : List (Option ℚ)) : Option ℚ :=
  if l.filterMap id = [] then none else some (l.filterMap id).sum

/-- Ascending lexicographic order on (school_year, student_id) group
keys, the order pandas `groupby` emits groups in. -/
def pairLE (a b : Int × Int) : Prop :=
  a.1 < b.1 ∨ (a.1 = b.1 ∧ a.2 ≤ b.2)

instance : DecidableRel pairLE := fun a b => by
  unfold pairLE
  infer_instance

/-- One row of the output of `compute_yearly_totals`. -/
structure YearlyRow where
  school_year : Int
  student_id : Int
  tot_cred_att : Option ℚ
  tot_cred_earned : Option ℚ
  tot_gpa_pts : Option ℚ
deriving DecidableEq, Repr

/-- One group of the yearly `groupby(["school_year", "student_id"])`:
the rows of `kept` with key `k`, each `tot_*` column summed with
`min_count=1`. -/
def yearlyGroupRow (kept : List CourseGradeRow) (k : Int × Int) : YearlyRow :=
  let g := kept.filter (fun r => decide ((r.school_year, r.student_id) = k))
  { school_year := k.1
    student_id := k.2
    tot_cred_att := sum_min_count_1 (g.map tot_cred_att_row)
    tot_cred_earned := sum_min_count_1 (g.map tot_cred_earned_row)
    tot_gpa_pts := sum_min_count_1 (g.map tot_gpa_pts_row) }

/-- `compute_yearly_totals` (lines 278-305): filter to eligible rows,
derive the per-row `tot_*` quantities, and collapse them by
(school_year, student_id) with `groupby(...).sum(min_count=1)` (groups
emitted in ascending key order). -/
def compute_yearly_totals (d : List CourseGradeRow) : List YearlyRow :=
  let kept := d.filter eligibleRow
  let keys := List.insertionSort pairLE
    (kept.map (fun r => (r.school_year, r.student_id))).dedup
  keys.map (yearlyGroupRow kept)

/-- Line 362: `merged.loc[merged["mark"].isna(), "is_passing"] = np.nan`,
applied to one row. -/
def force_is_passing (r : CourseGradeRow) : CourseGradeRow :=
  if r.mark = none then { r with is_passing := none } else r

/-- Value of the `tot_gpa` float column: a rational, or one of the IEEE
non-finite values NaN / +inf / -inf that pandas float division can
produce. -/
inductive GpaVal where
  | nan : GpaVal
  | posInf : GpaVal
  | negInf : GpaVal
  | val (q : ℚ) : GpaVal
deriving DecidableEq, Repr

/-- Pandas float division of two cells (line 385): NaN if either operand
is NaN; for a zero divisor, NaN when the dividend is zero and a signed
infinity otherwise; the exact quotient else (float rounding of the
quotient is immaterial to every claim and is not modelled). -/
def pdDiv (a b : Option ℚ) : GpaVal :=
  match a, b with
  | some x, some y =>
    if y = 0 then (if x = 0 then GpaVal.nan else if 0 < x then GpaVal.posInf else GpaVal.negInf)
    else GpaVal.val (x / y)
  | _, _ => GpaVal.nan

/-- Round a rational to 2 decimal places, ties to even (numpy rounding,
line 386), computed exactly on rationals. -/
def roundHalfEven2 (q : ℚ) : ℚ :=
  let x := q * 100
  let f : Int := ⌊x⌋
  let r := x - f
  let n : Int :=
    if r < 1/2 then f
    else if 1/2 < r then f + 1
    else if f % 2 = 0 then f else f + 1
  (n : ℚ) / 100

/-- `Series.round(2)` on the tot_gpa column: NaN and infinities pass
through, finite values are rounded. -/
def roundGpa : GpaVal → GpaVal
  | GpaVal.val q => GpaVal.val (roundHalfEven2 q)
  | g => g

/-- One row of the final cumulative record set. -/
structure CumRow where
  student_id : Int
  tot_cred_att : Option ℚ
  tot_cred_earned : Option ℚ
  tot_gpa_pts : Option ℚ
  tot_gpa : GpaVal
deriving DecidableEq, Repr

/-- One group of the cumulative `groupby(["student_id"])`: the rows of
`all_cat` for student `sid`, each `tot_*` column summed with
`min_count=1`, plus the derived rounded `tot_gpa`. -/
def cumGroupRow (all_cat : List YearlyRow) (sid : Int) : CumRow :=
  let g := all_cat.filter (fun r => decide (r.student_id = sid))
  let att := sum_min_count_1 (g.map (fun r => r.tot_cred_att))
  let earned := sum_min_count_1 (g.map (fun r => r.tot_cred_earned))
  let pts := sum_min_count_1 (g.map (fun r => r.tot_gpa_pts))
  { student_id := sid
    tot_cred_att := att
    tot_cred_earned := earned
    tot_gpa_pts := pts
    tot_gpa := roundGpa (pdDiv pts att) }

/-- Lines 373-386 of `compute_cumulative_gpa`: concatenate the yearly
aggregate frames, collapse the `tot_*` columns by student_id with
`groupby(...).sum(min_count=1)` (groups in ascending student_id order),
then derive `tot_gpa = (tot_gpa_pts / tot_cred_att).round(2)`. -/
def compute_cumulative_from_frames (frames : List (List YearlyRow)) : List CumRow :=
  let all_cat := frames.flatten
  let sids := List.insertionSort (fun a b : Int => a ≤ b)
    (all_cat.map (fun r => r.student_id)).dedup
  sids.map (cumGroupRow all_cat)

/-- The aggregation core of `compute_cumulative_gpa` (lines 360-386):
the current year's biographic-joined coursegrade rows get `is_passing`
forced to NaN where `mark` is missing (line 362) and go through
`compute_yearly_totals`, each prior-year CSV goes through
`compute_yearly_totals` unchanged, and the frames are combined. -/
def compute_cumulative_gpa (current_merged : List CourseGradeRow)
    (prior_years : List (List CourseGradeRow)) : List CumRow :=
  let totals_current := compute_yearly_totals (current_merged.map force_is_passing)
  let prior_totals := prior_years.map compute_yearly_totals
  compute_cumulative_from_frames (totals_current :: prior_totals)

/-- One raw course-flag row (`Hsst_tbl_CourseFlag` after the SELECT of
lines 94-101; field names follow the spec renames: school_id is
SchoolDBN). -/
structure FlagRow where
  school_year : Int
  school_id : String
  term_code : String
  course_code : String
  marking_period : Int
  grade_averaged_flag : Option ℚ
deriving DecidableEq, Repr

/-- The sort key of the flag dedup (line 103): the five key columns, in
sort_values order. -/
def flagKeyOf (r : FlagRow) : Int × String × String × String × Int :=
  (r.school_year, r.school_id, r.term_code, r.course_code, r.marking_period)

/-- Ascending lexicographic comparison on the five sort columns of
`sort_values` (line 102), as a row preorder: rows with equal keys tie. -/
def flagLE (a b : FlagRow) : Prop :=
  a.school_year < b.school_year ∨ (a.school_year = b.school_year ∧
    (a.school_id < b.school_id ∨ (a.school_id = b.school_id ∧
      (a.term_code < b.term_code ∨ (a.term_code = b.term_code ∧
        (a.course_code < b.course_code ∨ (a.course_code = b.course_code ∧
          a.marking_period ≤ b.marking_period)))))))

instance : DecidableRel flagLE := fun a b => by
  unfold flagLE
  infer_instance

/-- `drop_duplicates(subset=keys, keep="first")` (lines 104-106): walk
the rows in order and keep each row whose key has not been seen yet. -/
def dropDupFirstByKey : List FlagRow → List (Int × String × String × String × Int) → List FlagRow
  | [], _ => []
  | r :: rs, seen =>
    if flagKeyOf r ∈ seen then dropDupFirstByKey rs seen
    else r :: dropDupFirstByKey rs (flagKeyOf r :: seen)

/-- The course-flag deduplication of `load_current_year_data` (lines
102-106): sort the rows on the five key columns (a stable sort; ties
between rows with equal keys keep their input order), then keep the
first row per key. -/
def dedup_course_flags (rows : List FlagRow) : List FlagRow :=
  dropDupFirstByKey (List.insertionSort flagLE rows) []

/-- Sum semantics in the spec's words (§4.3 grouping / §3 yearly
aggregate invariant): a grouped `tot_*` value is the sum of the non-null
per-row contributions when at least one contribution is non-null, and
null (not zero) when every contribution is null.  Stated separately from
the source-side `sum_min_count_1` so the two can be compared. -/
def SpecNullSum (contribs : List (Option ℚ)) (v : Option ℚ) : Prop :=
  ((∀ c ∈ contribs, c = none) → v = none) ∧
  ((∃ c ∈ contribs, c ≠ none) → v = some (contribs.filterMap id).sum)

/-- Concrete prior-year CSV row: a course with credits -1 (nothing in
`load_prior_courses` or `compute_yearly_totals` rejects non-positive
credits in a prior-year file; the `Credits > 0` predicate of line 79 is
applied only to the current-year SQL pull). -/
def negCreditRow : CourseGradeRow :=
  { school_year := 2022, student_id := 7, credits := some (-1), mark := some "A",
    is_passing := some 1, numeric_equivalent := some 4, grade_average_factor := some 1,
    grade_averaged_flag := some 1 }

/-- Concrete prior-year CSV row for the same student with credits 1. -/
def posCreditRow : CourseGradeRow :=
  { school_year := 2022, student_id := 7, credits := some 1, mark := some "B",
    is_passing := some 1, numeric_equivalent := some 3, grade_average_factor := some 1,
    grade_averaged_flag := some 1 }

/-- Concrete course-flag row whose grade_averaged_flag is 0. -/
def fr0 : FlagRow :=
  { school_year := 2023, school_id := "01M001", term_code := "1", course_code := "EES81",
    marking_period := 1, grade_averaged_flag := some 0 }

/-- Concrete course-flag row with the same five-column key as `fr0` but
grade_averaged_flag 1. -/
def fr1 : FlagRow :=
  { school_year := 2023, school_id := "01M001", term_code := "1", course_code := "EES81",
    marking_period := 1, grade_averaged_flag := some 1 }

/-- Concrete eligible coursegrade row whose credits and
grade_average_factor cells are null. -/
def wRow : CourseGradeRow :=
  { school_year := 2023, student_id := 5, credits := none, mark := some "A",
    is_passing := none, numeric_equivalent := some 4, grade_average_factor := none,
    grade_averaged_flag := some 1 }

/-- The yearly aggregate row produced from `wRow` alone. -/
def wy : YearlyRow :=
  { school_year := 2023, student_id := 5, tot_cred_att := none,
    tot_cred_earned := none, tot_gpa_pts := none }

/-- Concrete yearly aggregate row. -/
def wyr : YearlyRow :=
  { school_year := 2023, student_id := 5, tot_cred_att := some 2,
    tot_cred_earned := none, tot_gpa_pts := none }

/-- The cumulative row produced from the single frame `[wyr]`. -/
def wc : CumRow :=
  { student_id := 5, tot_cred_att := some 2, tot_cred_earned := none,
    tot_gpa_pts := none, tot_gpa := GpaVal.nan }

/-- Concrete yearly aggregate frame for one student in 2022. -/
def wFrameA : List YearlyRow :=
  [{ school_year := 2022, student_id := 1, tot_cred_att := some 10,
     tot_cred_earned := some 8, tot_gpa_pts := some 30 }]

/-- Concrete yearly aggregate frame for the same student in 2023. -/
def wFrameB : List YearlyRow :=
  [{ school_year := 2023, student_id := 1, tot_cred_att := some 5,
     tot_cred_earned := some 5, tot_gpa_pts := some 20 }]

/-- Concrete eligible coursegrade row whose credits cell is null. -/
def wR7 : CourseGradeRow :=
  { school_year := 2023, student_id := 9, credits := none, mark := some "B",
    is_passing := some 1, numeric_equivalent := some 4, grade_average_factor := some 1,
    grade_averaged_flag := some 1 }

/-- Concrete coursegrade row whose mark cell is null. -/
def wR8 : CourseGradeRow :=
  { school_year := 2023, student_id := 9, credits := some 2, mark := none,
    is_passing := some 1, numeric_equivalent := some 4, grade_average_factor := some 1,
    grade_averaged_flag := some 1 }

theorem filterMap_id_eq_nil_iff (l : List (Option ℚ)) :
    l.filterMap id = [] ↔ ∀ c ∈ l, c = none := by
  simp [List.filterMap_eq_nil_iff]

theorem sum_min_count_1_of_all_none {l : List (Option ℚ)} (h : ∀ c ∈ l, c = none) :
    sum_min_count_1 l = none := by
  unfold sum_min_count_1
  rw [if_pos ((filterMap_id_eq_nil_iff l).mpr h)]

theorem sum_min_count_1_of_exists_some {l : List (Option ℚ)} (h : ∃ c ∈ l, c ≠ none) :
    sum_min_count_1 l = some (l.filterMap id).sum := by
  unfold sum_min_count_1
  rw [if_neg]
  intro hnil
  obtain ⟨c, hc, hne⟩ := h
  exact hne ((filterMap_id_eq_nil_iff l).mp hnil c hc)

theorem sum_min_count_1_congr_perm {l₁ l₂ : List (Option ℚ)} (h : l₁.Perm l₂) :
    sum_min_count_1 l₁ = sum_min_count_1 l₂ := by
  unfold sum_min_count_1
  have hfm : (l₁.filterMap id).Perm (l₂.filterMap id) := h.filterMap id
  by_cases h1 : l₁.filterMap id = []
  · have h2 : l₂.filterMap id = [] := by
      rw [h1] at hfm
      exact hfm.symm.eq_nil
    rw [if_pos h1, if_pos h2]
  · have h2 : ¬ l₂.filterMap id = [] := by
      intro h2
      rw [h2] at hfm
      exact h1 hfm.eq_nil
    rw [if_neg h1, if_neg h2, hfm.sum_eq]

theorem specNullSum_sum_min_count_1 (l : List (Option ℚ)) :
    SpecNullSum l (sum_min_count_1 l) :=
  ⟨sum_min_count_1_of_all_none, sum_min_count_1_of_exists_some⟩

theorem dropDupFirstByKey_filter (l : List FlagRow)
    (seen : List (Int × String × String × String × Int))
    (k : Int × String × String × String × Int) :
    (dropDupFirstByKey l seen).filter (fun r => decide (flagKeyOf r = k)) =
      if k ∈ seen then [] else (l.filter (fun r => decide (flagKeyOf r = k))).take 1 := by
  induction l generalizing seen with
  | nil => simp [dropDupFirstByKey]
  | cons r rs ih =>
    simp only [dropDupFirstByKey]
    by_cases hmem : flagKeyOf r ∈ seen
    · rw [if_pos hmem, ih]
      by_cases hk : k ∈ seen
      · rw [if_pos hk, if_pos hk]
      · have hrk : ¬ (flagKeyOf r = k) := fun he => hk (he ▸ hmem)
        rw [if_neg hk, if_neg hk,
          show List.filter (fun x => decide (flagKeyOf x = k)) (r :: rs) =
            List.filter (fun x => decide (flagKeyOf x = k)) rs from by simp [hrk]]
    · rw [if_neg hmem]
      by_cases hrk : flagKeyOf r = k
      · have hk : ¬ k ∈ seen := fun hin => hmem (hrk ▸ hin)
        rw [if_neg hk]
        have hfilter : List.filter (fun x => decide (flagKeyOf x = k))
            (r :: dropDupFirstByKey rs (flagKeyOf r :: seen)) =
            r :: (dropDupFirstByKey rs (flagKeyOf r :: seen)).filter
              (fun x => decide (flagKeyOf x = k)) := by simp [hrk]
        rw [hfilter, ih]
        have hk2 : k ∈ flagKeyOf r :: seen := by simp [hrk]
        rw [if_pos hk2]
        have hf2 : List.filter (fun x => decide (flagKeyOf x = k)) (r :: rs) =
            r :: rs.filter (fun x => decide (flagKeyOf x = k)) := by simp [hrk]
        rw [hf2]
        simp
      · have hf3 : List.filter (fun x => decide (flagKeyOf x = k))
            (r :: dropDupFirstByKey rs (flagKeyOf r :: seen)) =
            (dropDupFirstByKey rs (flagKeyOf r :: seen)).filter
              (fun x => decide (flagKeyOf x = k)) := by simp [hrk]
        rw [hf3, ih]
        have hk3 : (k ∈ flagKeyOf r :: seen) ↔ k ∈ seen := by
          simp only [List.mem_cons]
          constructor
          · rintro (h | h)
            · exact absurd h.symm hrk
            · exact h
          · exact Or.inr
        have hf4 : List.filter (fun x => decide (flagKeyOf x = k)) (r :: rs) =
            rs.filter (fun x => decide (flagKeyOf x = k)) := by simp [hrk]
        rw [hf4]
        by_cases hk : k ∈ seen
        · rw [if_pos (hk3.mpr hk), if_pos hk]
        · rw [if_neg (fun h => hk (hk3.mp h)), if_neg hk]

/-- C1, counterexample: on the code, the course code "E3HXXX" does not
get course_description "Honors" — its sixth character (0-indexed
position 5) is 'X', not 'H'. -/
theorem c1_counterexample :
    derive_subject_and_description "E3HXXX" ≠ ("English", "Honors") := by decide

/-- C1 (amended): for the input course code "E3HXXX" the Course
Attribute Deriver produces subject "English" and course_description
"Advanced Placement (AP)" (char1 is 'E'; char6, the 0-indexed position
5, is 'X', which maps to the AP tier; char4 is 'X', so no override
applies). -/
theorem c1_E3HXXX_derivation :
    derive_subject_and_description "E3HXXX" =
      ("English", "Advanced Placement (AP)") := by decide

/-- C2: evidence of the code bug.  A prior-year file holding two
otherwise-eligible rows for student 7 whose credits sum to 0 while the
grade points sum to -1 makes the pipeline produce tot_gpa = -infinity, a
non-null value, where the spec (and the Stata semantics the script
documents itself as replicating) require null: pandas float division
returns a signed infinity, not NaN, for a nonzero dividend over zero. -/
theorem c2_zero_att_nonzero_pts_gives_negInf :
    compute_cumulative_gpa [] [[negCreditRow, posCreditRow]] =
      [{ student_id := 7, tot_cred_att := some 0, tot_cred_earned := some 0,
         tot_gpa_pts := some (-1), tot_gpa := GpaVal.negInf }] ∧
    GpaVal.negInf ≠ GpaVal.nan := by
  constructor
  · have hy : compute_yearly_totals [negCreditRow, posCreditRow] =
        [{ school_year := 2022, student_id := 7, tot_cred_att := some 0,
           tot_cred_earned := some 0, tot_gpa_pts := some (-1) }] := by
      simp +decide [compute_yearly_totals, yearlyGroupRow, eligibleRow, negCreditRow,
        posCreditRow, List.insertionSort, List.orderedInsert, sum_min_count_1,
        tot_cred_att_row, tot_cred_earned_row, tot_gpa_pts_row, optMul,
        List.filter_cons, List.filter_nil, List.filterMap_cons]
      norm_num
    have hy0 : compute_yearly_totals [] = [] := by
      simp [compute_yearly_totals]
    simp +decide [compute_cumulative_gpa, hy, hy0, compute_cumulative_from_frames,
      cumGroupRow, List.insertionSort, List.orderedInsert, sum_min_count_1,
      List.filter_cons, List.filter_nil, List.filterMap_cons, pdDiv, roundGpa]
  · decide

/-- C3, counterexample: two course-flag rows with the same
(school_year, school_id, term_code, course_code, marking_period) key but
different grade_averaged_flag values tie under the key-only sort, so the
retained row depends on the input ordering — presenting the same two
rows in the two possible orders retains two different flags, refuting
"deterministically for every input ordering". -/
theorem c3_counterexample :
    dedup_course_flags [fr0, fr1] = [fr0] ∧ dedup_course_flags [fr1, fr0] = [fr1] ∧
    fr0.grade_averaged_flag ≠ fr1.grade_averaged_flag := by
  have h01 : flagLE fr0 fr1 := by
    right
    exact ⟨rfl, Or.inr ⟨rfl, Or.inr ⟨rfl, Or.inr ⟨rfl, le_refl 1⟩⟩⟩⟩
  have h10 : flagLE fr1 fr0 := by
    right
    exact ⟨rfl, Or.inr ⟨rfl, Or.inr ⟨rfl, Or.inr ⟨rfl, le_refl 1⟩⟩⟩⟩
  have hk : flagKeyOf fr1 = flagKeyOf fr0 := rfl
  have hs1 : List.insertionSort flagLE [fr0, fr1] = [fr0, fr1] := by
    simp [List.insertionSort, List.orderedInsert, h01]
  have hs2 : List.insertionSort flagLE [fr1, fr0] = [fr1, fr0] := by
    simp [List.insertionSort, List.orderedInsert, h10]
  refine ⟨?_, ?_, by decide⟩
  · unfold dedup_course_flags
    rw [hs1]
    simp [dropDupFirstByKey, hk]
  · unfold dedup_course_flags
    rw [hs2]
    simp [dropDupFirstByKey, hk]

/-- C3 (amended): deduplication retains exactly one row per key tuple,
namely the first row with that key in the sorted sequence; because the
sort compares only the key columns, rows with equal keys tie, and with
the stable sort the retained duplicate is the first among them in input
order — it is therefore not invariant under reordering the input. -/
theorem c3_dedup_keeps_first_in_sorted_order (rows : List FlagRow)
    (k : Int × String × String × String × Int)
    (h : ∃ r ∈ rows, flagKeyOf r = k) :
    ((dedup_course_flags rows).filter (fun r => decide (flagKeyOf r = k))).length = 1 ∧
    (dedup_course_flags rows).filter (fun r => decide (flagKeyOf r = k)) =
      ((List.insertionSort flagLE rows).filter (fun r => decide (flagKeyOf r = k))).take 1 := by
  have heq : (dedup_course_flags rows).filter (fun r => decide (flagKeyOf r = k)) =
      ((List.insertionSort flagLE rows).filter (fun r => decide (flagKeyOf r = k))).take 1 := by
    unfold dedup_course_flags
    rw [dropDupFirstByKey_filter]
    simp
  refine ⟨?_, heq⟩
  rw [heq]
  obtain ⟨r, hr, hrk⟩ := h
  have hr2 : r ∈ List.insertionSort flagLE rows :=
    ((List.perm_insertionSort flagLE rows).mem_iff).mpr hr
  have hr3 : r ∈ (List.insertionSort flagLE rows).filter
      (fun x => decide (flagKeyOf x = k)) :=
    List.mem_filter.mpr ⟨hr2, by simp [hrk]⟩
  cases hfl : (List.insertionSort flagLE rows).filter (fun x => decide (flagKeyOf x = k)) with
  | nil =>
    rw [hfl] at hr3
    simp at hr3
  | cons a t => simp

/-- C3, witness for the amended theorem at a concrete input. -/
theorem c3_witness :
    ((dedup_course_flags [fr0]).filter
      (fun r => decide (flagKeyOf r = flagKeyOf fr0))).length = 1 ∧
    (dedup_course_flags [fr0]).filter (fun r => decide (flagKeyOf r = flagKeyOf fr0)) =
      ((List.insertionSort flagLE [fr0]).filter
        (fun r => decide (flagKeyOf r = flagKeyOf fr0))).take 1 :=
  c3_dedup_keeps_first_in_sorted_order [fr0] (flagKeyOf fr0)
    ⟨fr0, List.mem_singleton_self fr0, rfl⟩

/-- C4: a coursegrade row is included in aggregation iff its
grade_averaged_flag is present and nonzero and its numeric_equivalent is
present; a null-or-zero flag excludes the row, and a null
numeric_equivalent independently excludes it.  The second conjunct pins
down that `compute_yearly_totals` aggregates exactly the rows passing
`eligibleRow`. -/
theorem c4_eligibility_filter :
    (∀ (d : List CourseGradeRow) (r : CourseGradeRow),
      r ∈ d.filter eligibleRow ↔
        r ∈ d ∧ (∃ v, r.grade_averaged_flag = some v ∧ v ≠ 0) ∧
          r.numeric_equivalent ≠ none) ∧
    (∀ d : List CourseGradeRow,
      compute_yearly_totals d = compute_yearly_totals (d.filter eligibleRow)) := by
  constructor
  · intro d r
    rw [List.mem_filter]
    have he : eligibleRow r = true ↔
        (∃ v, r.grade_averaged_flag = some v ∧ v ≠ 0) ∧ r.numeric_equivalent ≠ none := by
      cases hf : r.grade_averaged_flag <;> simp [eligibleRow, hf]
    rw [he]
  · intro d
    have hff : (d.filter eligibleRow).filter eligibleRow = d.filter eligibleRow := by
      simp [List.filter_filter]
    simp only [compute_yearly_totals, hff]

/-- C5: in the per-year grouping by (school_year, student_id) and in the
cumulative grouping by student_id, every tot_* field of an output row is
the sum of the non-null per-row contributions of its group when at least
one contribution is non-null, and null (not zero) when every
contribution is null (`SpecNullSum`). -/
theorem c5_group_sum_null_semantics :
    (∀ (d : List CourseGradeRow) (y : YearlyRow), y ∈ compute_yearly_totals d →
      SpecNullSum (((d.filter eligibleRow).filter
          (fun r => decide ((r.school_year, r.student_id) =
            (y.school_year, y.student_id)))).map tot_cred_att_row) y.tot_cred_att ∧
      SpecNullSum (((d.filter eligibleRow).filter
          (fun r => decide ((r.school_year, r.student_id) =
            (y.school_year, y.student_id)))).map tot_cred_earned_row) y.tot_cred_earned ∧
      SpecNullSum (((d.filter eligibleRow).filter
          (fun r => decide ((r.school_year, r.student_id) =
            (y.school_year, y.student_id)))).map tot_gpa_pts_row) y.tot_gpa_pts) ∧
    (∀ (frames : List (List YearlyRow)) (c : CumRow),
      c ∈ compute_cumulative_from_frames frames →
      SpecNullSum ((frames.flatten.filter
          (fun r => decide (r.student_id = c.student_id))).map
          (fun r => r.tot_cred_att)) c.tot_cred_att ∧
      SpecNullSum ((frames.flatten.filter
          (fun r => decide (r.student_id = c.student_id))).map
          (fun r => r.tot_cred_earned)) c.tot_cred_earned ∧
      SpecNullSum ((frames.flatten.filter
          (fun r => decide (r.student_id = c.student_id))).map
          (fun r => r.tot_gpa_pts)) c.tot_gpa_pts) := by
  constructor
  · intro d y hy
    simp only [compute_yearly_totals, List.mem_map] at hy
    obtain ⟨k, hk, rfl⟩ := hy
    have hkey : ((yearlyGroupRow (d.filter eligibleRow) k).school_year,
        (yearlyGroupRow (d.filter eligibleRow) k).student_id) = k := rfl
    rw [hkey]
    exact ⟨specNullSum_sum_min_count_1 _, specNullSum_sum_min_count_1 _,
      specNullSum_sum_min_count_1 _⟩
  · intro frames c hc
    simp only [compute_cumulative_from_frames, List.mem_map] at hc
    obtain ⟨sid, hsid, rfl⟩ := hc
    have hkey : (cumGroupRow frames.flatten sid).student_id = sid := rfl
    rw [hkey]
    exact ⟨specNullSum_sum_min_count_1 _, specNullSum_sum_min_count_1 _,
      specNullSum_sum_min_count_1 _⟩

/-- C5, witness at concrete inputs: a yearly group whose only
contributions are null yields null fields, and a cumulative group with a
non-null credits contribution yields its sum. -/
theorem c5_witness :
    SpecNullSum ((([wRow].filter eligibleRow).filter
        (fun r => decide ((r.school_year, r.student_id) =
          (wy.school_year, wy.student_id)))).map tot_cred_att_row) wy.tot_cred_att ∧
    SpecNullSum (([[wyr]].flatten.filter
        (fun r => decide (r.student_id = wc.student_id))).map
        (fun r => r.tot_cred_att)) wc.tot_cred_att :=
  ⟨(c5_group_sum_null_semantics.1 [wRow] wy (by
      have h : compute_yearly_totals [wRow] = [wy] := by
        simp +decide [compute_yearly_totals, yearlyGroupRow, eligibleRow, wRow, wy,
          List.insertionSort, List.orderedInsert, sum_min_count_1, tot_cred_att_row,
          tot_cred_earned_row, tot_gpa_pts_row, optMul, List.filter_cons,
          List.filter_nil, List.filterMap_cons]
      rw [h]
      exact List.mem_singleton_self wy)).1,
   (c5_group_sum_null_semantics.2 [[wyr]] wc (by
      have h : compute_cumulative_from_frames [[wyr]] = [wc] := by
        simp +decide [compute_cumulative_from_frames, cumGroupRow, wyr, wc,
          List.insertionSort, List.orderedInsert, sum_min_count_1, List.filter_cons,
          List.filter_nil, List.filterMap_cons, pdDiv, roundGpa]
      rw [h]
      exact List.mem_singleton_self wc)).1⟩

/-- C6: the cumulative combiner's output record set is identical for
every permutation of the order in which the yearly aggregate frames are
concatenated before the group-by-student summation. -/
theorem c6_combine_order_invariant (frames₁ frames₂ : List (List YearlyRow))
    (h : frames₁.Perm frames₂) :
    compute_cumulative_from_frames frames₁ = compute_cumulative_from_frames frames₂ := by
  have hall : frames₁.flatten.Perm frames₂.flatten := h.flatten
  have hrow : cumGroupRow frames₁.flatten = cumGroupRow frames₂.flatten := by
    funext sid
    have hg := hall.filter (fun r => decide (r.student_id = sid))
    simp only [cumGroupRow]
    rw [sum_min_count_1_congr_perm (hg.map (fun r => r.tot_cred_att)),
      sum_min_count_1_congr_perm (hg.map (fun r => r.tot_cred_earned)),
      sum_min_count_1_congr_perm (hg.map (fun r => r.tot_gpa_pts))]
  have hsid : ((frames₁.flatten.map (fun r => r.student_id)).dedup).Perm
      ((frames₂.flatten.map (fun r => r.student_id)).dedup) :=
    (hall.map (fun r => r.student_id)).dedup
  have hsorted₁ := List.sorted_insertionSort (fun a b : Int => a ≤ b)
    ((frames₁.flatten.map (fun r => r.student_id)).dedup)
  have hsorted₂ := List.sorted_insertionSort (fun a b : Int => a ≤ b)
    ((frames₂.flatten.map (fun r => r.student_id)).dedup)
  have hperm : (List.insertionSort (fun a b : Int => a ≤ b)
      ((frames₁.flatten.map (fun r => r.student_id)).dedup)).Perm
      (List.insertionSort (fun a b : Int => a ≤ b)
      ((frames₂.flatten.map (fun r => r.student_id)).dedup)) :=
    (List.perm_insertionSort _ _).trans (hsid.trans (List.perm_insertionSort _ _).symm)
  have hsids := List.eq_of_perm_of_sorted hperm hsorted₁ hsorted₂
  simp only [compute_cumulative_from_frames]
  rw [hsids, hrow]

/-- C6, witness: swapping two concrete yearly frames leaves the
cumulative output unchanged. -/
theorem c6_witness :
    compute_cumulative_from_frames [wFrameA, wFrameB] =
      compute_cumulative_from_frames [wFrameB, wFrameA] :=
  c6_combine_order_invariant [wFrameA, wFrameB] [wFrameB, wFrameA]
    (List.Perm.swap wFrameB wFrameA [])

/-- C7: for every coursegrade row passing the eligibility filter, the
per-row tot_gpa_pts quantity is null iff at least one of
numeric_equivalent, credits, grade_average_factor is null. -/
theorem c7_gpa_pts_null_iff (r : CourseGradeRow) (_h : eligibleRow r = true) :
    tot_gpa_pts_row r = none ↔
      r.numeric_equivalent = none ∨ r.credits = none ∨
        r.grade_average_factor = none := by
  cases hn : r.numeric_equivalent <;> cases hc : r.credits <;>
    cases hg : r.grade_average_factor <;> simp [tot_gpa_pts_row, optMul, hn, hc, hg]

/-- C7, witness at a concrete eligible row with a null credits cell. -/
theorem c7_witness :
    tot_gpa_pts_row wR7 = none ↔
      wR7.numeric_equivalent = none ∨ wR7.credits = none ∨
        wR7.grade_average_factor = none :=
  c7_gpa_pts_null_iff wR7 (by decide)

/-- C8: a coursegrade row whose mark cell is null has is_passing forced
to null by the pre-step of line 362, so its tot_cred_earned contribution
is null, while its credits still feed tot_cred_att and its eligibility
is unchanged. -/
theorem c8_null_mark_forces_null_is_passing (r : CourseGradeRow) (h : r.mark = none) :
    (force_is_passing r).is_passing = none ∧
    tot_cred_earned_row (force_is_passing r) = none ∧
    tot_cred_att_row (force_is_passing r) = r.credits ∧
    eligibleRow (force_is_passing r) = eligibleRow r := by
  have hf : force_is_passing r = { r with is_passing := none } := by
    simp [force_is_passing, h]
  rw [hf]
  refine ⟨rfl, ?_, rfl, rfl⟩
  cases hc : r.credits <;> simp [tot_cred_earned_row, optMul, hc]

/-- C8, witness at a concrete row with a null mark cell. -/
theorem c8_witness :
    (force_is_passing wR8).is_passing = none ∧
    tot_cred_earned_row (force_is_passing wR8) = none ∧
    tot_cred_att_row (force_is_passing wR8) = wR8.credits ∧
    eligibleRow (force_is_passing wR8) = eligibleRow wR8 :=
  c8_null_mark_forces_null_is_passing wR8 rfl

/-- C9: for every course code whose 0-indexed position 3 is 'M',
position 5 equal to 'A' forces course_description to "Accelerated", and
position 5 in {X, B, U, C, P} forces course_description to the empty
string. -/
theorem c9_middle_school_overrides (cc : String) (h4 : strSlice cc 3 4 = "M") :
    (strSlice cc 5 6 = "A" → derive_course_description cc = "Accelerated") ∧
    ((strSlice cc 5 6 = "X" ∨ strSlice cc 5 6 = "B" ∨ strSlice cc 5 6 = "U" ∨
        strSlice cc 5 6 = "C" ∨ strSlice cc 5 6 = "P") →
      derive_course_description cc = "") := by
  constructor
  · intro h6
    simp [derive_course_description, h4, h6, descriptionBase]
  · intro h6
    rcases h6 with h6 | h6 | h6 | h6 | h6 <;>
      simp [derive_course_description, h4, h6, descriptionBase]

/-- C9, witness at the concrete codes "ABCMXA" and "ABCMXX". -/
theorem c9_witness :
    derive_course_description "ABCMXA" = "Accelerated" ∧
    derive_course_description "ABCMXX" = "" :=
  ⟨(c9_middle_school_overrides "ABCMXA" (by decide)).1 (by decide),
   (c9_middle_school_overrides "ABCMXX" (by decide)).2 (by decide)⟩

/-- C10: a course code shorter than 6 characters always derives
course_description "" (the out-of-range sixth character matches no rule
and no override fires); shorter than 4 characters, the char4 subject
override cannot apply, so subject is exactly the char1 base table value;
and the empty course code derives ("", ""). -/
theorem c10_short_course_codes (cc : String) :
    (cc.length < 6 → derive_course_description cc = "") ∧
    (cc.length < 4 → derive_subject cc = subjectBase (strSlice cc 0 1)) ∧
    (derive_subject "" = "" ∧ derive_course_description "" = "") := by
  have hslice : ∀ a b : Nat, cc.length ≤ a → strSlice cc a b = "" := by
    intro a b ha
    unfold strSlice
    have hd : cc.data.drop a = [] := List.drop_eq_nil_iff.mpr ha
    rw [hd, List.take_nil]
  refine ⟨?_, ?_, by decide, by decide⟩
  · intro h6
    have hs : strSlice cc 5 6 = "" := hslice 5 6 (by omega)
    simp [derive_course_description, hs, descriptionBase]
  · intro h4
    have hs : strSlice cc 3 4 = "" := hslice 3 4 (by omega)
    simp [derive_subject, hs]

/-- C10, witness at the concrete 3-character code "E3H". -/
theorem c10_witness :
    derive_course_description "E3H" = "" ∧
    derive_subject "E3H" = subjectBase (strSlice "E3H" 0 1) :=
  ⟨(c10_short_course_codes "E3H").1 (by decide),
   (c10_short_course_codes "E3H").2.1 (by decide)⟩
